import Mathlib

/-!
Shallow embedding of the data-joining, filtering and derived-metric
pipeline of streamlit_app.py (EduSkillUp analytics dashboard).

Tables are modelled as in pandas: a list of column names plus a list of
rows, where a row is an association list from column names to cell
values.  A cell value is a string, a rational number, a calendar date
(year, month, day), or the missing / non-finite marker (NaN / NaT /
inf), written Value.null.
-/

namespace AdbProject

/-- A cell value of an in-memory table: a string, a rational number, a
calendar date (year, month, day), or the missing / non-finite marker
(pandas NaN, NaT or inf). -/
inductive Value where
  | str : String → Value
  | num : ℚ → Value
  | date : Nat → Nat → Nat → Value
  | null : Value
deriving DecidableEq

/-- A row of a DataFrame: an association list from column names to
cell values. -/
abbrev Row := List (String × Value)

/-- A pandas DataFrame: its column list and its rows. -/
structure Table where
  cols : List String
  rows : List Row
deriving DecidableEq

/-- Look a column up in a row (the value of the cell, if the row binds
that column). -/
def getCol (c : String) : Row → Option Value
  | [] => none
  | (k, v) :: r => if k = c then some v else getCol c r

/-- Lexicographic order on (year, month, day) triples: the order of the
corresponding calendar dates. -/
def dateLE (a b : Nat × Nat × Nat) : Bool :=
  decide (a.1 < b.1) ||
    (decide (a.1 = b.1) &&
      (decide (a.2.1 < b.2.1) || (decide (a.2.1 = b.2.1) && decide (a.2.2 ≤ b.2.2))))

/-- The row predicate of the date filter of filter_data: the row has a
date in the given column and it lies in the closed range [lo, hi].
A missing or non-date cell (pandas NaT) compares False and the row is
dropped, as in pandas. -/
def matchesDate (dateCol : String) (lo hi : Nat × Nat × Nat) (r : Row) : Bool :=
  match getCol dateCol r with
  | some (.date y m d) => dateLE lo (y, m, d) && dateLE (y, m, d) hi
  | _ => false

/-- The row predicate of an isin filter of filter_data: the cell in the
given column is one of the selected values.  A missing cell (pandas
NaN) is never in the selection, as in pandas. -/
def matchesIsin (col : String) (sel : List Value) (r : Row) : Bool :=
  match getCol col r with
  | some v => decide (v ∈ sel)
  | none => false

/-- The date-range stage of filter_data: when the date column exists,
keep the rows whose date lies in [lo, hi]; a missing column raises a
KeyError that the source catches and ignores, leaving the table as is. -/
def dateFilter (dateCol : String) (lo hi : Nat × Nat × Nat) (t : Table) : Table :=
  if t.cols.contains dateCol then
    { t with rows := t.rows.filter (matchesDate dateCol lo hi) }
  else t

/-- One isin stage of filter_data: when the selection is non-empty (a
Python None argument behaves as the empty selection) and the column
exists, keep the rows whose cell is one of the selected values. -/
def isinFilter (col : String) (sel : List Value) (t : Table) : Table :=
  if sel.isEmpty then t
  else if t.cols.contains col then
    { t with rows := t.rows.filter (matchesIsin col sel) }
  else t

/-- filter_data of streamlit_app.py: an empty table is returned as is;
otherwise the date-range filter on dateCol is applied, then the
CategoryName, MembershipType, CourseLevel and CompletionStatus isin
filters in that order.  The optional Python arguments defaulting to
None are modelled as empty selections. -/
def filter_data (df : Table) (dateCol : String) (lo hi : Nat × Nat × Nat)
    (categories membershipTypes courseLevels completionStatuses : List Value) : Table :=
  if df.rows.length = 0 then df
  else
    isinFilter "CompletionStatus" completionStatuses
      (isinFilter "CourseLevel" courseLevels
        (isinFilter "MembershipType" membershipTypes
          (isinFilter "CategoryName" categories
            (dateFilter dateCol lo hi df))))

/-- The filter application of main (lines 627-631): the enrollment
table is filtered on EnrollmentDate with all five criteria; the
performance table is filtered on SubmissionDate with only the date
range and the categories (the remaining arguments are left at their
None defaults). -/
def applyMainFilters (enrollment performance : Table) (lo hi : Nat × Nat × Nat)
    (cats mems lvls stats : List Value) : Table × Table :=
  (filter_data enrollment "EnrollmentDate" lo hi cats mems lvls stats,
   filter_data performance "SubmissionDate" lo hi cats [] [] [])

example :
    filter_data
      { cols := ["EnrollmentDate", "MembershipType"],
        rows := [[("EnrollmentDate", .date 2024 3 5), ("MembershipType", .str "Free")],
                 [("EnrollmentDate", .date 2024 3 9), ("MembershipType", .str "Premium")]] }
      "EnrollmentDate" (2024, 1, 1) (2024, 12, 31)
      [] [Value.str "Premium"] [] [] =
    { cols := ["EnrollmentDate", "MembershipType"],
      rows := [[("EnrollmentDate", .date 2024 3 9), ("MembershipType", .str "Premium")]] } := by
  decide

theorem dateFilter_cols (dateCol : String) (lo hi : Nat × Nat × Nat) (t : Table) :
    (dateFilter dateCol lo hi t).cols = t.cols := by
  unfold dateFilter
  split <;> rfl

theorem isinFilter_cols (col : String) (sel : List Value) (t : Table) :
    (isinFilter col sel t).cols = t.cols := by
  unfold isinFilter
  split
  · rfl
  · split <;> rfl

theorem dateFilter_rows_sublist (dateCol : String) (lo hi : Nat × Nat × Nat) (t : Table) :
    (dateFilter dateCol lo hi t).rows.Sublist t.rows := by
  unfold dateFilter
  split
  · exact List.filter_sublist t.rows
  · exact List.Sublist.refl t.rows

theorem isinFilter_rows_sublist (col : String) (sel : List Value) (t : Table) :
    (isinFilter col sel t).rows.Sublist t.rows := by
  unfold isinFilter
  split
  · exact List.Sublist.refl t.rows
  · split
    · exact List.filter_sublist t.rows
    · exact List.Sublist.refl t.rows

theorem mem_dateFilter {r : Row} {dateCol : String} {lo hi : Nat × Nat × Nat} {t : Table}
    (h : r ∈ (dateFilter dateCol lo hi t).rows) :
    r ∈ t.rows ∧ (t.cols.contains dateCol = true → matchesDate dateCol lo hi r = true) := by
  unfold dateFilter at h
  split at h
  next hc =>
    have hm := List.mem_filter.mp h
    exact ⟨hm.1, fun _ => hm.2⟩
  next hc =>
    exact ⟨h, fun hcc => absurd hcc hc⟩

theorem mem_isinFilter {r : Row} {col : String} {sel : List Value} {t : Table}
    (h : r ∈ (isinFilter col sel t).rows) :
    r ∈ t.rows ∧
      (sel.isEmpty = false → t.cols.contains col = true → matchesIsin col sel r = true) := by
  unfold isinFilter at h
  split at h
  next he => exact ⟨h, fun hf => absurd he (by simp [hf])⟩
  next he =>
    split at h
    next hc =>
      have hm := List.mem_filter.mp h
      exact ⟨hm.1, fun _ _ => hm.2⟩
    next hc => exact ⟨h, fun _ hcc => absurd hcc hc⟩

theorem dateFilter_eq_self {dateCol : String} {lo hi : Nat × Nat × Nat} {t : Table}
    (h : ∀ r ∈ t.rows, t.cols.contains dateCol = true → matchesDate dateCol lo hi r = true) :
    dateFilter dateCol lo hi t = t := by
  unfold dateFilter
  split
  next hc =>
    rw [List.filter_eq_self.mpr (fun r hr => h r hr hc)]
  next hc => rfl

theorem isinFilter_eq_self {col : String} {sel : List Value} {t : Table}
    (h : ∀ r ∈ t.rows,
      sel.isEmpty = false → t.cols.contains col = true → matchesIsin col sel r = true) :
    isinFilter col sel t = t := by
  unfold isinFilter
  split
  next he => rfl
  next he =>
    split
    next hc =>
      rw [List.filter_eq_self.mpr
        (fun r hr => h r hr (Bool.eq_false_iff.mpr he) hc)]
    next hc => rfl

theorem isinFilter_empty (col : String) (t : Table) : isinFilter col [] t = t := by
  unfold isinFilter
  rfl

theorem isinFilter_of_not_contains {col : String} {sel : List Value} {t : Table}
    (h : t.cols.contains col = false) : isinFilter col sel t = t := by
  unfold isinFilter
  split
  · rfl
  · rw [if_neg (by simpa using h)]

theorem filter_data_cols (df : Table) (dateCol : String) (lo hi : Nat × Nat × Nat)
    (cs ms ls ss : List Value) :
    (filter_data df dateCol lo hi cs ms ls ss).cols = df.cols := by
  unfold filter_data
  split
  · rfl
  · rw [isinFilter_cols, isinFilter_cols, isinFilter_cols, isinFilter_cols, dateFilter_cols]

theorem filter_data_rows_sublist (df : Table) (dateCol : String) (lo hi : Nat × Nat × Nat)
    (cs ms ls ss : List Value) :
    (filter_data df dateCol lo hi cs ms ls ss).rows.Sublist df.rows := by
  unfold filter_data
  split
  · exact List.Sublist.refl df.rows
  · exact (isinFilter_rows_sublist _ _ _).trans
      ((isinFilter_rows_sublist _ _ _).trans
        ((isinFilter_rows_sublist _ _ _).trans
          ((isinFilter_rows_sublist _ _ _).trans (dateFilter_rows_sublist _ _ _ _))))

theorem mem_filter_data {r : Row} {df : Table} {dateCol : String} {lo hi : Nat × Nat × Nat}
    {cs ms ls ss : List Value}
    (h : r ∈ (filter_data df dateCol lo hi cs ms ls ss).rows) :
    r ∈ df.rows
    ∧ (df.cols.contains dateCol = true → matchesDate dateCol lo hi r = true)
    ∧ (cs.isEmpty = false → df.cols.contains "CategoryName" = true →
        matchesIsin "CategoryName" cs r = true)
    ∧ (ms.isEmpty = false → df.cols.contains "MembershipType" = true →
        matchesIsin "MembershipType" ms r = true)
    ∧ (ls.isEmpty = false → df.cols.contains "CourseLevel" = true →
        matchesIsin "CourseLevel" ls r = true)
    ∧ (ss.isEmpty = false → df.cols.contains "CompletionStatus" = true →
        matchesIsin "CompletionStatus" ss r = true) := by
  unfold filter_data at h
  split at h
  next hlen => exact ⟨h, fun hc => absurd hc (by simp_all), by simp_all, by simp_all,
    by simp_all, by simp_all⟩
  next hlen =>
    have h4 := mem_isinFilter h
    have h3 := mem_isinFilter h4.1
    have h2 := mem_isinFilter h3.1
    have h1 := mem_isinFilter h2.1
    have h0 := mem_dateFilter h1.1
    simp only [isinFilter_cols, dateFilter_cols] at h4 h3 h2 h1
    exact ⟨h0.1, h0.2, h1.2, h2.2, h3.2, h4.2⟩

theorem filter_data_eq_self {df : Table} {dateCol : String} {lo hi : Nat × Nat × Nat}
    {cs ms ls ss : List Value}
    (h : ∀ r ∈ df.rows,
      (df.cols.contains dateCol = true → matchesDate dateCol lo hi r = true)
      ∧ (cs.isEmpty = false → df.cols.contains "CategoryName" = true →
          matchesIsin "CategoryName" cs r = true)
      ∧ (ms.isEmpty = false → df.cols.contains "MembershipType" = true →
          matchesIsin "MembershipType" ms r = true)
      ∧ (ls.isEmpty = false → df.cols.contains "CourseLevel" = true →
          matchesIsin "CourseLevel" ls r = true)
      ∧ (ss.isEmpty = false → df.cols.contains "CompletionStatus" = true →
          matchesIsin "CompletionStatus" ss r = true)) :
    filter_data df dateCol lo hi cs ms ls ss = df := by
  unfold filter_data
  split
  · rfl
  · rw [dateFilter_eq_self (fun r hr => (h r hr).1),
        isinFilter_eq_self (fun r hr => (h r hr).2.1),
        isinFilter_eq_self (fun r hr => (h r hr).2.2.1),
        isinFilter_eq_self (fun r hr => (h r hr).2.2.2.1),
        isinFilter_eq_self (fun r hr => (h r hr).2.2.2.2)]

theorem filter_data_idem (df : Table) (dateCol : String) (lo hi : Nat × Nat × Nat)
    (cs ms ls ss : List Value) :
    filter_data (filter_data df dateCol lo hi cs ms ls ss) dateCol lo hi cs ms ls ss
      = filter_data df dateCol lo hi cs ms ls ss := by
  have hcols := filter_data_cols df dateCol lo hi cs ms ls ss
  refine filter_data_eq_self (fun r hr => ?_)
  rw [hcols]
  exact (mem_filter_data hr).2

/-- C9: filter_data is a pure row selection: it preserves the column
list, it returns a sublist (hence a sub-multiset) of the input rows,
and applying it a second time with the same arguments returns the same
table.  The input table itself is untouched, since the source copies
the frame before masking and every operation here is a pure function of
the input. -/
theorem C9_filter_data_pure_selection (df : Table) (dateCol : String)
    (lo hi : Nat × Nat × Nat) (cs ms ls ss : List Value) :
    (filter_data df dateCol lo hi cs ms ls ss).cols = df.cols
    ∧ (filter_data df dateCol lo hi cs ms ls ss).rows.Sublist df.rows
    ∧ filter_data (filter_data df dateCol lo hi cs ms ls ss) dateCol lo hi cs ms ls ss
        = filter_data df dateCol lo hi cs ms ls ss :=
  ⟨filter_data_cols df dateCol lo hi cs ms ls ss,
   filter_data_rows_sublist df dateCol lo hi cs ms ls ss,
   filter_data_idem df dateCol lo hi cs ms ls ss⟩

theorem filter_data_extra_noop {df : Table} {dateCol : String} {lo hi : Nat × Nat × Nat}
    {cs ms ls ss : List Value}
    (hm : df.cols.contains "MembershipType" = false)
    (hl : df.cols.contains "CourseLevel" = false)
    (hs : df.cols.contains "CompletionStatus" = false) :
    filter_data df dateCol lo hi cs ms ls ss = filter_data df dateCol lo hi cs [] [] [] := by
  by_cases hlen : df.rows.length = 0
  · simp only [filter_data, if_pos hlen]
  · simp only [filter_data, if_neg hlen]
    have c2 : (isinFilter "CategoryName" cs (dateFilter dateCol lo hi df)).cols = df.cols := by
      rw [isinFilter_cols, dateFilter_cols]
    rw [isinFilter_empty, isinFilter_empty, isinFilter_empty,
        @isinFilter_of_not_contains "MembershipType" ms (isinFilter "CategoryName" cs
          (dateFilter dateCol lo hi df)) (by rw [c2]; exact hm),
        @isinFilter_of_not_contains "CourseLevel" ls (isinFilter "CategoryName" cs
          (dateFilter dateCol lo hi df)) (by rw [c2]; exact hl),
        @isinFilter_of_not_contains "CompletionStatus" ss (isinFilter "CategoryName" cs
          (dateFilter dateCol lo hi df)) (by rw [c2]; exact hs)]

/-- A one-row enrollment table used to exercise the filter wiring of
main on concrete data. -/
def enrEx : Table :=
  { cols := ["EnrollmentDate", "MembershipType"],
    rows := [[("EnrollmentDate", .date 2024 9 1), ("MembershipType", .str "Premium")]] }

/-- A one-row performance table that carries a MembershipType column,
used to show that the membership criterion is not applied to the
performance side by main. -/
def perfEx : Table :=
  { cols := ["SubmissionDate", "MembershipType"],
    rows := [[("SubmissionDate", .date 2024 9 1), ("MembershipType", .str "Free")]] }

/-- C1 (counterexample): main does not restrict the performance table
by the membership criterion.  With the membership selection [Premium],
a performance row whose MembershipType is Free survives main's
filtering, and main's performance output differs from filter_data
applied with the same five criteria used for the enrollment table. -/
theorem C1_counterexample :
    (∃ r ∈ (applyMainFilters enrEx perfEx (2024, 1, 1) (2024, 12, 31)
        [] [Value.str "Premium"] [] []).2.rows,
      getCol "MembershipType" r = some (Value.str "Free")
      ∧ Value.str "Free" ∉ [Value.str "Premium"])
    ∧ (applyMainFilters enrEx perfEx (2024, 1, 1) (2024, 12, 31)
        [] [Value.str "Premium"] [] []).2
      ≠ filter_data perfEx "SubmissionDate" (2024, 1, 1) (2024, 12, 31)
          [] [Value.str "Premium"] [] [] := by
  decide

/-- C1 (amended): main filters the enrollment table on EnrollmentDate
with the date-range, category, membership, level and status criteria,
and the performance table on SubmissionDate with only the date-range
and category criteria; the membership, level and status criteria
restrict only the enrollment table.  On a performance table that has
none of the MembershipType, CourseLevel and CompletionStatus columns
(as the tables produced by both loading paths do), the result coincides
with applying all five criteria. -/
theorem C1_main_filters_amended (enr perf : Table) (lo hi : Nat × Nat × Nat)
    (cats mems lvls stats : List Value) :
    (∀ r ∈ (applyMainFilters enr perf lo hi cats mems lvls stats).1.rows,
      r ∈ enr.rows
      ∧ (enr.cols.contains "EnrollmentDate" = true →
          matchesDate "EnrollmentDate" lo hi r = true)
      ∧ (cats.isEmpty = false → enr.cols.contains "CategoryName" = true →
          matchesIsin "CategoryName" cats r = true)
      ∧ (mems.isEmpty = false → enr.cols.contains "MembershipType" = true →
          matchesIsin "MembershipType" mems r = true)
      ∧ (lvls.isEmpty = false → enr.cols.contains "CourseLevel" = true →
          matchesIsin "CourseLevel" lvls r = true)
      ∧ (stats.isEmpty = false → enr.cols.contains "CompletionStatus" = true →
          matchesIsin "CompletionStatus" stats r = true))
    ∧ (∀ r ∈ (applyMainFilters enr perf lo hi cats mems lvls stats).2.rows,
      r ∈ perf.rows
      ∧ (perf.cols.contains "SubmissionDate" = true →
          matchesDate "SubmissionDate" lo hi r = true)
      ∧ (cats.isEmpty = false → perf.cols.contains "CategoryName" = true →
          matchesIsin "CategoryName" cats r = true))
    ∧ (perf.cols.contains "MembershipType" = false →
        perf.cols.contains "CourseLevel" = false →
        perf.cols.contains "CompletionStatus" = false →
        (applyMainFilters enr perf lo hi cats mems lvls stats).2
          = filter_data perf "SubmissionDate" lo hi cats mems lvls stats) :=
  ⟨fun _ hr => mem_filter_data hr,
   fun _ hr =>
     have h := mem_filter_data hr
     ⟨h.1, h.2.1, h.2.2.1⟩,
   fun hm hl hs => (filter_data_extra_noop hm hl hs).symm⟩

/-- C1 (witness): the amended theorem evaluated on the concrete one-row
tables: the surviving enrollment row is in range and Premium, and the
surviving performance row is in range. -/
theorem C1_main_filters_amended_witness :
    ([("EnrollmentDate", Value.date 2024 9 1), ("MembershipType", Value.str "Premium")] : Row)
        ∈ enrEx.rows
    ∧ matchesDate "EnrollmentDate" (2024, 1, 1) (2024, 12, 31)
        [("EnrollmentDate", Value.date 2024 9 1), ("MembershipType", Value.str "Premium")] = true
    ∧ matchesIsin "MembershipType" [Value.str "Premium"]
        [("EnrollmentDate", Value.date 2024 9 1), ("MembershipType", Value.str "Premium")] = true :=
  have h := (C1_main_filters_amended enrEx perfEx (2024, 1, 1) (2024, 12, 31)
      [] [Value.str "Premium"] [] []).1
      [("EnrollmentDate", Value.date 2024 9 1), ("MembershipType", Value.str "Premium")]
      (by decide)
  ⟨h.1, h.2.1 (by decide), h.2.2.2.1 (by decide) (by decide)⟩

/-- The rows a single left row contributes to a pandas left merge on
one key column: one row per matching right row, carrying the selected
right attributes, or a single row padded with nulls when no right row
matches. -/
def mergeOneRow (rrows : List Row) (key : String) (attrs : List String) (lr : Row) : List Row :=
  if (rrows.filter (fun rr => decide (getCol key rr = getCol key lr))).isEmpty then
    [lr ++ attrs.map (fun a => (a, Value.null))]
  else
    (rrows.filter (fun rr => decide (getCol key rr = getCol key lr))).map
      (fun rr => lr ++ attrs.map (fun a => (a, (getCol a rr).getD Value.null)))

/-- The rows of a pandas DataFrame.merge(..., on := key, how := left):
each left row in order contributes its merged rows. -/
def leftMergeRows (lrows rrows : List Row) (key : String) (attrs : List String) : List Row :=
  lrows.flatMap (mergeOneRow rrows key attrs)

/-- DataFrame.merge with how = left on a single key column, bringing
the given attribute columns over from the right table. -/
def leftMerge (left right : Table) (key : String) (attrs : List String) : Table :=
  { cols := left.cols ++ attrs,
    rows := leftMergeRows left.rows right.rows key attrs }

/-- The enrollment analysis table of load_data_from_csv (lines
109-116): the enrollment facts left-merged with the student dimension
on StudentKey and then with the course dimension on CourseKey. -/
def buildEnrollmentTable (factEnrollment dimStudent dimCourse : Table) : Table :=
  leftMerge (leftMerge factEnrollment dimStudent "StudentKey" ["StudentName", "MembershipType"])
    dimCourse "CourseKey" ["CourseTitle", "Level"]

theorem length_mergeOneRow {rrows : List Row} {key : String} {attrs : List String} (lr : Row)
    (h : (rrows.filter (fun rr => decide (getCol key rr = getCol key lr))).length ≤ 1) :
    (mergeOneRow rrows key attrs lr).length = 1 := by
  unfold mergeOneRow
  split
  · rfl
  next he =>
    rw [List.length_map]
    have hne : rrows.filter (fun rr => decide (getCol key rr = getCol key lr)) ≠ [] :=
      fun hnil => he (by rw [hnil]; rfl)
    have h0 : (rrows.filter (fun rr => decide (getCol key rr = getCol key lr))).length ≠ 0 :=
      fun h0 => hne (List.length_eq_zero.mp h0)
    omega

theorem length_leftMergeRows {lrows rrows : List Row} {key : String} {attrs : List String}
    (h : ∀ v : Option Value, (rrows.filter (fun rr => decide (getCol key rr = v))).length ≤ 1) :
    (leftMergeRows lrows rrows key attrs).length = lrows.length := by
  induction lrows with
  | nil => rfl
  | cons lr ls ih =>
    rw [leftMergeRows, List.flatMap_cons, List.length_append]
    rw [leftMergeRows] at ih
    rw [ih, length_mergeOneRow lr (h (getCol key lr)), List.length_cons]
    omega

theorem length_filter_key_le_one_of_nodup {α : Type} [DecidableEq α] {f : Row → α}
    {l : List Row} (h : (l.map f).Nodup) (v : α) :
    (l.filter (fun x => decide (f x = v))).length ≤ 1 := by
  induction l with
  | nil => simp
  | cons x xs ih =>
    rw [List.map_cons, List.nodup_cons] at h
    by_cases hx : f x = v
    · rw [List.filter_cons_of_pos (by simpa using hx)]
      have hnil : xs.filter (fun y => decide (f y = v)) = [] := by
        rw [List.filter_eq_nil_iff]
        intro y hy hfy
        exact h.1 (List.mem_map.mpr ⟨y, hy, by
          rw [decide_eq_true_eq] at hfy
          rw [hfy, hx]⟩)
      simp [hnil]
    · rw [List.filter_cons_of_neg (by simpa using hx)]
      exact ih h.2

theorem no_match_mem_leftMergeRows {lrows rrows : List Row} {key : String} {attrs : List String}
    {lr : Row} (hl : lr ∈ lrows)
    (h : ∀ rr ∈ rrows, getCol key rr ≠ getCol key lr) :
    lr ++ attrs.map (fun a => (a, Value.null)) ∈ leftMergeRows lrows rrows key attrs := by
  have hnil : rrows.filter (fun rr => decide (getCol key rr = getCol key lr)) = [] :=
    List.filter_eq_nil_iff.mpr (fun rr hrr => by simpa using h rr hrr)
  refine List.mem_flatMap.mpr ⟨lr, hl, ?_⟩
  simp [mergeOneRow, hnil]

theorem exists_ext_mem_leftMergeRows {lrows rrows : List Row} {key : String}
    {attrs : List String} {lr : Row} (hl : lr ∈ lrows) :
    ∃ ext : Row, lr ++ ext ∈ leftMergeRows lrows rrows key attrs := by
  rcases hms : rrows.filter (fun rr => decide (getCol key rr = getCol key lr)) with - | ⟨rr, rest⟩
  · exact ⟨attrs.map (fun a => (a, Value.null)),
      List.mem_flatMap.mpr ⟨lr, hl, by simp [mergeOneRow, hms]⟩⟩
  · refine ⟨attrs.map (fun a => (a, (getCol a rr).getD Value.null)),
      List.mem_flatMap.mpr ⟨lr, hl, ?_⟩⟩
    simp only [mergeOneRow, hms]
    rw [if_neg (by simp)]
    exact List.mem_map_of_mem _ (List.mem_cons_self rr rest)

theorem exists_attrs_mem_leftMergeRows {lrows rrows : List Row} {key : String}
    {a1 a2 : String} {lr : Row} (hl : lr ∈ lrows) :
    ∃ v1 v2 : Value, lr ++ [(a1, v1), (a2, v2)] ∈ leftMergeRows lrows rrows key [a1, a2] := by
  rcases hms : rrows.filter (fun rr => decide (getCol key rr = getCol key lr)) with - | ⟨rr, rest⟩
  · exact ⟨Value.null, Value.null,
      List.mem_flatMap.mpr ⟨lr, hl, by simp [mergeOneRow, hms]⟩⟩
  · refine ⟨(getCol a1 rr).getD Value.null, (getCol a2 rr).getD Value.null,
      List.mem_flatMap.mpr ⟨lr, hl, ?_⟩⟩
    simp only [mergeOneRow, hms]
    rw [if_neg (by simp)]
    exact List.mem_map_of_mem _ (List.mem_cons_self rr rest)

theorem pair_keys_ne {a1 a2 c : String} (h1 : a1 ≠ c) (h2 : a2 ≠ c) (v1 v2 : Value) :
    ∀ p ∈ [(a1, v1), (a2, v2)], p.1 ≠ c := by
  intro p hp
  rcases List.mem_cons.mp hp with h | h
  · rw [h]; exact h1
  · rw [List.mem_singleton.mp h]; exact h2

theorem getCol_eq_none_of_keys_ne {c : String} {s : Row} (h : ∀ p ∈ s, p.1 ≠ c) :
    getCol c s = none := by
  induction s with
  | nil => rfl
  | cons p s ih =>
    rw [getCol]
    rw [if_neg (h p (List.mem_cons_self p s))]
    exact ih (fun q hq => h q (List.mem_cons_of_mem p hq))

theorem getCol_append_right_ne (c : String) (r s : Row) (h : ∀ p ∈ s, p.1 ≠ c) :
    getCol c (r ++ s) = getCol c r := by
  induction r with
  | nil => exact getCol_eq_none_of_keys_ne h
  | cons p r ih =>
    rcases p with ⟨k, v⟩
    by_cases hk : k = c
    · simp [getCol, hk]
    · simp [getCol, hk, ih]

/-- C5: the joins of load_data_from_csv use how = left, so foreign-key
resolution is not enforced: under unique dimension keys the analysis
table has exactly one row per fact row; every fact row survives the
join extended with dimension attributes; a fact row whose StudentKey
matches no student row is kept with null StudentName and
MembershipType; a fact row whose CourseKey matches no course row is
kept with null CourseTitle and Level; and a fact row with both keys
unmatched is kept with all four dimension attributes null (nulling
rather than dropping, in every branch of the disjunction). -/
theorem C5_left_join_keeps_unmatched_facts (fact dimStudent dimCourse : Table)
    (hs : (dimStudent.rows.map (getCol "StudentKey")).Nodup)
    (hc : (dimCourse.rows.map (getCol "CourseKey")).Nodup) :
    (buildEnrollmentTable fact dimStudent dimCourse).rows.length = fact.rows.length
    ∧ (∀ lr ∈ fact.rows, ∃ ext : Row,
        lr ++ ext ∈ (buildEnrollmentTable fact dimStudent dimCourse).rows)
    ∧ (∀ lr ∈ fact.rows,
        (∀ sr ∈ dimStudent.rows, getCol "StudentKey" sr ≠ getCol "StudentKey" lr) →
        ∃ v3 v4 : Value,
          lr ++ [("StudentName", Value.null), ("MembershipType", Value.null),
                 ("CourseTitle", v3), ("Level", v4)]
            ∈ (buildEnrollmentTable fact dimStudent dimCourse).rows)
    ∧ (∀ lr ∈ fact.rows,
        (∀ cr ∈ dimCourse.rows, getCol "CourseKey" cr ≠ getCol "CourseKey" lr) →
        ∃ v1 v2 : Value,
          lr ++ [("StudentName", v1), ("MembershipType", v2),
                 ("CourseTitle", Value.null), ("Level", Value.null)]
            ∈ (buildEnrollmentTable fact dimStudent dimCourse).rows)
    ∧ (∀ lr ∈ fact.rows,
        (∀ sr ∈ dimStudent.rows, getCol "StudentKey" sr ≠ getCol "StudentKey" lr) →
        (∀ cr ∈ dimCourse.rows, getCol "CourseKey" cr ≠ getCol "CourseKey" lr) →
        lr ++ [("StudentName", Value.null), ("MembershipType", Value.null),
               ("CourseTitle", Value.null), ("Level", Value.null)]
          ∈ (buildEnrollmentTable fact dimStudent dimCourse).rows) := by
  refine ⟨?_, ?_, ?_, ?_, ?_⟩
  · show (leftMergeRows (leftMergeRows fact.rows dimStudent.rows "StudentKey" _)
      dimCourse.rows "CourseKey" _).length = fact.rows.length
    rw [length_leftMergeRows (fun v => length_filter_key_le_one_of_nodup hc v),
        length_leftMergeRows (fun v => length_filter_key_le_one_of_nodup hs v)]
  · intro lr hl
    obtain ⟨e1, h1⟩ := @exists_ext_mem_leftMergeRows fact.rows dimStudent.rows
      "StudentKey" ["StudentName", "MembershipType"] lr hl
    obtain ⟨e2, h2⟩ := @exists_ext_mem_leftMergeRows _ dimCourse.rows
      "CourseKey" ["CourseTitle", "Level"] _ h1
    exact ⟨e1 ++ e2, by rw [← List.append_assoc]; exact h2⟩
  · intro lr hl hns
    have h1 : lr ++ [("StudentName", Value.null), ("MembershipType", Value.null)]
        ∈ leftMergeRows fact.rows dimStudent.rows "StudentKey"
          ["StudentName", "MembershipType"] :=
      no_match_mem_leftMergeRows hl hns
    obtain ⟨v3, v4, h2⟩ := @exists_attrs_mem_leftMergeRows _ dimCourse.rows
      "CourseKey" "CourseTitle" "Level" _ h1
    rw [List.append_assoc] at h2
    exact ⟨v3, v4, h2⟩
  · intro lr hl hnc
    obtain ⟨v1, v2, h1⟩ := @exists_attrs_mem_leftMergeRows fact.rows dimStudent.rows
      "StudentKey" "StudentName" "MembershipType" lr hl
    have hkey : getCol "CourseKey"
        (lr ++ [("StudentName", v1), ("MembershipType", v2)])
        = getCol "CourseKey" lr :=
      getCol_append_right_ne _ _ _ (pair_keys_ne (by decide) (by decide) v1 v2)
    have h2 := @no_match_mem_leftMergeRows _ dimCourse.rows "CourseKey"
      ["CourseTitle", "Level"] _ h1
      (fun cr hcr => by rw [hkey]; exact hnc cr hcr)
    rw [List.append_assoc] at h2
    exact ⟨v1, v2, h2⟩
  · intro lr hl hns hnc
    have h1 : lr ++ [("StudentName", Value.null), ("MembershipType", Value.null)]
        ∈ leftMergeRows fact.rows dimStudent.rows "StudentKey"
          ["StudentName", "MembershipType"] :=
      no_match_mem_leftMergeRows hl hns
    have hkey : getCol "CourseKey"
        (lr ++ [("StudentName", Value.null), ("MembershipType", Value.null)])
        = getCol "CourseKey" lr :=
      getCol_append_right_ne _ _ _ (by decide)
    have h2 := @no_match_mem_leftMergeRows _ dimCourse.rows "CourseKey"
      ["CourseTitle", "Level"] _ h1
      (fun cr hcr => by rw [hkey]; exact hnc cr hcr)
    show _ ∈ leftMergeRows (leftMergeRows fact.rows dimStudent.rows "StudentKey" _)
      dimCourse.rows "CourseKey" _
    rw [show (lr ++ [("StudentName", Value.null), ("MembershipType", Value.null),
          ("CourseTitle", Value.null), ("Level", Value.null)] : Row)
        = (lr ++ [("StudentName", Value.null), ("MembershipType", Value.null)])
          ++ [("CourseTitle", Value.null), ("Level", Value.null)] by
      rw [List.append_assoc]; rfl]
    exact h2

/-- A one-row enrollment fact table whose keys match no dimension row. -/
def factEx : Table :=
  { cols := ["EnrollmentKey", "StudentKey", "CourseKey"],
    rows := [[("EnrollmentKey", .num 1), ("StudentKey", .num 99), ("CourseKey", .num 42)]] }

/-- A one-row student dimension with a key distinct from the fact. -/
def dimStudentEx : Table :=
  { cols := ["StudentKey", "StudentName", "MembershipType"],
    rows := [[("StudentKey", .num 1), ("StudentName", .str "Alice"),
              ("MembershipType", .str "Free")]] }

/-- A one-row course dimension with a key distinct from the fact. -/
def dimCourseEx : Table :=
  { cols := ["CourseKey", "CourseTitle", "Level"],
    rows := [[("CourseKey", .num 7), ("CourseTitle", .str "Python Basics"),
              ("Level", .str "Beginner")]] }

/-- C5 (witness): on concrete one-row tables with non-matching keys the
row count is unchanged, each one-sided unmatched case keeps the fact
row with that side's attributes null, and the fully unmatched case
keeps it with all four dimension attributes null. -/
theorem C5_left_join_keeps_unmatched_facts_witness :
    (buildEnrollmentTable factEx dimStudentEx dimCourseEx).rows.length = factEx.rows.length
    ∧ (∃ v3 v4 : Value,
        ([("EnrollmentKey", Value.num 1), ("StudentKey", Value.num 99),
          ("CourseKey", Value.num 42)] : Row)
          ++ [("StudentName", Value.null), ("MembershipType", Value.null),
              ("CourseTitle", v3), ("Level", v4)]
          ∈ (buildEnrollmentTable factEx dimStudentEx dimCourseEx).rows)
    ∧ (∃ v1 v2 : Value,
        ([("EnrollmentKey", Value.num 1), ("StudentKey", Value.num 99),
          ("CourseKey", Value.num 42)] : Row)
          ++ [("StudentName", v1), ("MembershipType", v2),
              ("CourseTitle", Value.null), ("Level", Value.null)]
          ∈ (buildEnrollmentTable factEx dimStudentEx dimCourseEx).rows)
    ∧ ([("EnrollmentKey", Value.num 1), ("StudentKey", Value.num 99),
        ("CourseKey", Value.num 42)] : Row)
        ++ [("StudentName", Value.null), ("MembershipType", Value.null),
            ("CourseTitle", Value.null), ("Level", Value.null)]
        ∈ (buildEnrollmentTable factEx dimStudentEx dimCourseEx).rows :=
  have h := C5_left_join_keeps_unmatched_facts factEx dimStudentEx dimCourseEx
    (by decide) (by decide)
  ⟨h.1, h.2.2.1 _ (by decide) (by decide), h.2.2.2.1 _ (by decide) (by decide),
   h.2.2.2.2 _ (by decide) (by decide) (by decide)⟩

/-- The value assigned to the ScorePercentage cell of one row:
ScoreEarned divided by the cell in the denominator column, times 100.
A zero denominator or a non-numeric operand yields the non-finite
marker (pandas inf or NaN). -/
def scoreValue (denCol : String) (r : Row) : Value :=
  match getCol "ScoreEarned" r, getCol denCol r with
  | some (.num a), some (.num b) => if b = 0 then Value.null else Value.num (a / b * 100)
  | _, _ => Value.null

/-- Pandas column assignment on one row: any previous binding of the
column is replaced and the new cell appended. -/
def setCol (c : String) (v : Value) (r : Row) : Row :=
  r.filter (fun p => decide (p.1 ≠ c)) ++ [(c, v)]

/-- The derived-field step of both loading paths (lines 129 and 173):
assign ScorePercentage = ScoreEarned / denCol * 100 on every row, with
denCol = MaxPossibleScore on the CSV path and denCol = MaxScore on the
sample path. -/
def addScorePercentage (denCol : String) (t : Table) : Table :=
  { cols := if t.cols.contains "ScorePercentage" then t.cols
            else t.cols ++ ["ScorePercentage"],
    rows := t.rows.map (fun r => setCol "ScorePercentage" (scoreValue denCol r) r) }

theorem getCol_append_of_none {c : String} {r : Row} (s : Row) (h : getCol c r = none) :
    getCol c (r ++ s) = getCol c s := by
  induction r with
  | nil => rfl
  | cons p r ih =>
    rw [getCol] at h
    rw [List.cons_append, getCol]
    split at h
    · exact absurd h (by simp)
    next hk => rw [if_neg hk]; exact ih h

theorem getCol_filter_ne {c k : String} (h : k ≠ c) (r : Row) :
    getCol k (r.filter (fun p => decide (p.1 ≠ c))) = getCol k r := by
  induction r with
  | nil => rfl
  | cons p r ih =>
    by_cases hp : p.1 = c
    · rw [List.filter_cons_of_neg (by simpa using hp), ih, getCol,
        if_neg (by rw [hp]; exact fun hc => h hc.symm)]
    · rw [List.filter_cons_of_pos (by simpa using hp)]
      rw [getCol, getCol]
      split <;> [rfl; exact ih]

theorem getCol_setCol_self (c : String) (v : Value) (r : Row) :
    getCol c (setCol c v r) = some v := by
  unfold setCol
  rw [getCol_append_of_none _ ?hnone]
  · rw [getCol, if_pos rfl]
  · exact getCol_eq_none_of_keys_ne
      (fun p hp => by simpa using (List.mem_filter.mp hp).2)

theorem getCol_setCol_ne {c k : String} (h : k ≠ c) (v : Value) (r : Row) :
    getCol k (setCol c v r) = getCol k r := by
  unfold setCol
  rw [getCol_append_right_ne _ _ _ (by simpa using fun hc => absurd hc.symm h),
    getCol_filter_ne h]

/-- The central property of the derived-field step: every row of the
output binds ScorePercentage to the value computed by scoreValue from
that same row's current ScoreEarned and denominator cells (both of
which the assignment leaves untouched), so no stale copy can survive. -/
theorem getCol_SP_addScorePercentage {denCol : String} {t : Table} {r : Row}
    (hden : denCol ≠ "ScorePercentage")
    (hr : r ∈ (addScorePercentage denCol t).rows) :
    getCol "ScorePercentage" r = some (scoreValue denCol r) := by
  obtain ⟨orig, ho, rfl⟩ := List.mem_map.mp hr
  rw [getCol_setCol_self]
  congr 1
  unfold scoreValue
  rw [getCol_setCol_ne (by decide), getCol_setCol_ne hden]

/-- C10: the division of the derived-field step is unguarded.  On a row
with numeric ScoreEarned and denominator, a nonzero denominator yields
the finite value ScoreEarned / denominator * 100 and the step never
fails, while a zero denominator yields the non-finite marker. -/
theorem C10_division_unguarded (denCol : String) (t : Table) (r : Row) (a b : ℚ)
    (hden : denCol ≠ "ScorePercentage")
    (hr : r ∈ (addScorePercentage denCol t).rows)
    (ha : getCol "ScoreEarned" r = some (Value.num a))
    (hb : getCol denCol r = some (Value.num b)) :
    (b ≠ 0 → getCol "ScorePercentage" r = some (Value.num (a / b * 100)))
    ∧ (b = 0 → getCol "ScorePercentage" r = some Value.null) := by
  have hsp := getCol_SP_addScorePercentage hden hr
  simp only [scoreValue, ha, hb] at hsp
  exact ⟨fun h0 => by rw [hsp, if_neg h0], fun h0 => by rw [hsp, if_pos h0]⟩

/-- A one-row performance table with a nonzero maximum score. -/
def perfScoreEx : Table :=
  { cols := ["ScoreEarned", "MaxPossibleScore"],
    rows := [[("ScoreEarned", .num 45), ("MaxPossibleScore", .num 50)]] }

/-- The derived row produced from the single row of perfScoreEx. -/
def perfScoreDerivedRow : Row :=
  setCol "ScorePercentage"
    (scoreValue "MaxPossibleScore"
      [("ScoreEarned", Value.num 45), ("MaxPossibleScore", Value.num 50)])
    [("ScoreEarned", Value.num 45), ("MaxPossibleScore", Value.num 50)]

/-- C10 (witness): the derived row of the concrete table carries the
finite percentage 45 / 50 * 100. -/
theorem C10_division_unguarded_witness :
    getCol "ScorePercentage" perfScoreDerivedRow = some (Value.num (45 / 50 * 100)) :=
  (C10_division_unguarded "MaxPossibleScore" perfScoreEx perfScoreDerivedRow 45 50
      (by decide) (List.mem_map_of_mem _ (by decide)) (by decide) (by decide)).1 (by decide)

/-- A one-row performance table whose ScoreEarned and MaxPossibleScore
are both zero. -/
def zeroScoreEx : Table :=
  { cols := ["ScoreEarned", "MaxPossibleScore"],
    rows := [[("ScoreEarned", .num 0), ("MaxPossibleScore", .num 0)]] }

/-- C3 (counterexample): a row with ScoreEarned = MaxPossibleScore = 0
gets the non-finite marker (pandas NaN, from 0 / 0), not 100, as its
ScorePercentage. -/
theorem C3_counterexample :
    ∃ r ∈ (addScorePercentage "MaxPossibleScore" zeroScoreEx).rows,
      getCol "ScoreEarned" r = some (Value.num 0)
      ∧ getCol "MaxPossibleScore" r = some (Value.num 0)
      ∧ getCol "ScorePercentage" r = some Value.null
      ∧ getCol "ScorePercentage" r ≠ some (Value.num 100) := by
  decide

/-- C3 (amended): on every derived row whose ScoreEarned equals its
MaxPossibleScore and whose MaxPossibleScore is nonzero, the computed
ScorePercentage is exactly 100. -/
theorem C3_full_score_amended (t : Table) (r : Row) (a : ℚ)
    (hr : r ∈ (addScorePercentage "MaxPossibleScore" t).rows)
    (ha : getCol "ScoreEarned" r = some (Value.num a))
    (hb : getCol "MaxPossibleScore" r = some (Value.num a))
    (h0 : a ≠ 0) :
    getCol "ScorePercentage" r = some (Value.num 100) := by
  have hsp := getCol_SP_addScorePercentage (by decide) hr
  simp only [scoreValue, ha, hb] at hsp
  rw [hsp, if_neg h0, div_self h0, one_mul]

/-- A one-row performance table with a full score. -/
def fullScoreEx : Table :=
  { cols := ["ScoreEarned", "MaxPossibleScore"],
    rows := [[("ScoreEarned", .num 50), ("MaxPossibleScore", .num 50)]] }

/-- The derived row produced from the single row of fullScoreEx. -/
def fullScoreDerivedRow : Row :=
  setCol "ScorePercentage"
    (scoreValue "MaxPossibleScore"
      [("ScoreEarned", Value.num 50), ("MaxPossibleScore", Value.num 50)])
    [("ScoreEarned", Value.num 50), ("MaxPossibleScore", Value.num 50)]

/-- C3 (witness): the derived row of the concrete full-score table has
ScorePercentage 100. -/
theorem C3_full_score_amended_witness :
    getCol "ScorePercentage" fullScoreDerivedRow = some (Value.num 100) :=
  C3_full_score_amended fullScoreEx fullScoreDerivedRow 50
    (List.mem_map_of_mem _ (by decide)) (by decide) (by decide) (by decide)

/-- The column list of the sample performance frame built by
load_sample_data (lines 157-169), in dictionary order. -/
def samplePerformanceCols : List String :=
  ["PerformanceKey", "StudentName", "CourseTitle", "AssessmentTitle", "AssessmentType",
   "DifficultyLevel", "ScoreEarned", "MaxScore", "TimeSpentMinutes", "AttemptsCount",
   "SubmissionDate"]

/-- The five course titles the sample generator draws from. -/
def sampleCourseTitles : List String :=
  ["Python Basics", "Data Analysis", "Web Design", "Business Strategy", "Digital Marketing"]

/-- The assessment titles of the sample performance frame: the cycle of
four repeated seven times plus two extras. -/
def sampleAssessmentTitles : List String :=
  (List.replicate 7 ["Quiz 1", "Assignment 1", "Project", "Final Exam"]).flatten
    ++ ["Quiz 1", "Assignment 1"]

/-- The assessment types of the sample performance frame. -/
def sampleAssessmentTypes : List String :=
  (List.replicate 7 ["Quiz", "Assignment", "Project", "Exam"]).flatten
    ++ ["Quiz", "Assignment"]

/-- The three difficulty levels the sample generator draws from. -/
def sampleDifficulties : List String := ["Easy", "Medium", "Hard"]

/-- The thirty submission dates of the sample performance frame:
date_range from 2024-01-15 with a five-day frequency. -/
def sampleSubmissionDates : List Value :=
  [.date 2024 1 15, .date 2024 1 20, .date 2024 1 25, .date 2024 1 30,
   .date 2024 2 4, .date 2024 2 9, .date 2024 2 14, .date 2024 2 19,
   .date 2024 2 24, .date 2024 2 29, .date 2024 3 5, .date 2024 3 10,
   .date 2024 3 15, .date 2024 3 20, .date 2024 3 25, .date 2024 3 30,
   .date 2024 4 4, .date 2024 4 9, .date 2024 4 14, .date 2024 4 19,
   .date 2024 4 24, .date 2024 4 29, .date 2024 5 4, .date 2024 5 9,
   .date 2024 5 14, .date 2024 5 19, .date 2024 5 24, .date 2024 5 29,
   .date 2024 6 3, .date 2024 6 8]

/-- Row i of the sample performance frame.  The NumPy draws (student
index, course choice, difficulty choice, uniform score, time spent,
attempt count) are taken as parameters; everything else is fixed by the
source. -/
def samplePerformanceRow (studentIdx : Fin 30 → Nat) (courseIdx : Fin 30 → Fin 5)
    (diffIdx : Fin 30 → Fin 3) (scoreEarned : Fin 30 → ℚ)
    (timeSpent attempts : Fin 30 → Nat) (i : Fin 30) : Row :=
  [("PerformanceKey", .num ((i.val : ℚ) + 1)),
   ("StudentName", .str ("Student_" ++ toString (studentIdx i))),
   ("CourseTitle", .str (sampleCourseTitles.getD (courseIdx i).val "")),
   ("AssessmentTitle", .str (sampleAssessmentTitles.getD i.val "")),
   ("AssessmentType", .str (sampleAssessmentTypes.getD i.val "")),
   ("DifficultyLevel", .str (sampleDifficulties.getD (diffIdx i).val "")),
   ("ScoreEarned", .num (scoreEarned i)),
   ("MaxScore", .num 100),
   ("TimeSpentMinutes", .num ((timeSpent i : ℚ))),
   ("AttemptsCount", .num ((attempts i : ℚ))),
   ("SubmissionDate", sampleSubmissionDates.getD i.val Value.null)]

/-- The performance half of load_sample_data: the thirty-row frame of
lines 157-169 followed by the derived-field assignment of line 173,
which divides by the MaxScore column. -/
def load_sample_performance (studentIdx : Fin 30 → Nat) (courseIdx : Fin 30 → Fin 5)
    (diffIdx : Fin 30 → Fin 3) (scoreEarned : Fin 30 → ℚ)
    (timeSpent attempts : Fin 30 → Nat) : Table :=
  addScorePercentage "MaxScore"
    { cols := samplePerformanceCols,
      rows := (List.finRange 30).map
        (samplePerformanceRow studentIdx courseIdx diffIdx scoreEarned timeSpent attempts) }

/-- The sample performance table at one concrete draw of the generator
parameters. -/
def samplePerfEx : Table :=
  load_sample_performance (fun _ => 1) (fun _ => 0) (fun _ => 0)
    (fun _ => 80) (fun _ => 30) (fun _ => 1)

/-- The first row of the sample performance frame at the concrete
parameters of samplePerfEx, before the derived-field assignment. -/
def sampleRow0 : Row :=
  samplePerformanceRow (fun _ => 1) (fun _ => 0) (fun _ => 0)
    (fun _ => 80) (fun _ => 30) (fun _ => 1) (0 : Fin 30)

/-- The first row of samplePerfEx, after the derived-field assignment. -/
def sampleDerivedRow0 : Row :=
  setCol "ScorePercentage" (scoreValue "MaxScore" sampleRow0) sampleRow0

/-- C2 (counterexample): the sample-data path has no MaxPossibleScore
column at all; its ScorePercentage is computed from the MaxScore
column.  A concrete sample row has the finite ScorePercentage
80 / 100 * 100 while its MaxPossibleScore cell does not exist, so on
this path ScorePercentage does not equal ScoreEarned divided by the
row's own MaxPossibleScore value (that formula has no value here). -/
theorem C2_counterexample :
    "MaxPossibleScore" ∉ samplePerfEx.cols
    ∧ ∃ r ∈ samplePerfEx.rows,
        getCol "MaxPossibleScore" r = none
        ∧ getCol "ScoreEarned" r = some (Value.num 80)
        ∧ getCol "ScorePercentage" r = some (Value.num (80 / 100 * 100))
        ∧ getCol "ScorePercentage" r ≠ some (scoreValue "MaxPossibleScore" r) := by
  refine ⟨by decide, sampleDerivedRow0,
    List.mem_map_of_mem _ (List.mem_map_of_mem _ (by decide)), by decide, by decide, rfl,
    by decide⟩

/-- C2 (amended): on both loading paths every derived row's
ScorePercentage equals ScoreEarned divided by the denominator cell of
that same row, times 100 — with denominator column MaxPossibleScore on
the CSV path and MaxScore on the sample path (which has no
MaxPossibleScore column); no stored copy can go stale, because the
value is recomputed from the row itself. -/
theorem C2_score_percentage_amended (t : Table)
    (studentIdx : Fin 30 → Nat) (courseIdx : Fin 30 → Fin 5) (diffIdx : Fin 30 → Fin 3)
    (scoreEarned : Fin 30 → ℚ) (timeSpent attempts : Fin 30 → Nat) :
    (∀ r ∈ (addScorePercentage "MaxPossibleScore" t).rows,
      getCol "ScorePercentage" r = some (scoreValue "MaxPossibleScore" r))
    ∧ (∀ r ∈ (load_sample_performance studentIdx courseIdx diffIdx scoreEarned
        timeSpent attempts).rows,
      getCol "ScorePercentage" r = some (scoreValue "MaxScore" r)) :=
  ⟨fun _ hr => getCol_SP_addScorePercentage (by decide) hr,
   fun _ hr => getCol_SP_addScorePercentage (by decide) hr⟩

/-- C2 (witness): the first concrete sample row satisfies the amended
equation with denominator column MaxScore. -/
theorem C2_score_percentage_amended_witness :
    getCol "ScorePercentage" sampleDerivedRow0
      = some (scoreValue "MaxScore" sampleDerivedRow0) :=
  (C2_score_percentage_amended { cols := [], rows := [] } (fun _ => 1) (fun _ => 0)
      (fun _ => 0) (fun _ => 80) (fun _ => 30) (fun _ => 1)).2
    sampleDerivedRow0 (List.mem_map_of_mem _ (List.mem_map_of_mem _ (by decide)))

/-- Completion-rate KPI of enrollment_dashboard (line 345): the sum of
the per-row 0/1 indicator of CompletionStatus being Completed, divided
by the row count, times 100 (the pandas sum of a boolean series). -/
def completion_rate (t : Table) : ℚ :=
  ((t.rows.map fun r =>
    if getCol "CompletionStatus" r = some (Value.str "Completed") then (1 : ℚ) else 0).sum)
    / (t.rows.length : ℚ) * 100

theorem sum_indicator_eq_length_filter (p : Row → Prop) [DecidablePred p] (l : List Row) :
    (l.map fun r => if p r then (1 : ℚ) else 0).sum
      = ((l.filter fun r => decide (p r)).length : ℚ) := by
  induction l with
  | nil => simp
  | cons x xs ih =>
    by_cases hx : p x
    · rw [List.map_cons, List.sum_cons, if_pos hx, ih,
        List.filter_cons_of_pos (by simpa using hx), List.length_cons]
      push_cast
      ring
    · rw [List.map_cons, List.sum_cons, if_neg hx, ih,
        List.filter_cons_of_neg (by simpa using hx), zero_add]

/-- C6: for a non-empty filtered enrollment table the completion rate
equals the number of rows whose CompletionStatus is Completed, divided
by the total number of rows, times 100. -/
theorem C6_completion_rate_eq (t : Table) (h : t.rows ≠ []) :
    completion_rate t
      = ((t.rows.filter fun r =>
          decide (getCol "CompletionStatus" r = some (Value.str "Completed"))).length : ℚ)
        / (t.rows.length : ℚ) * 100
    ∧ (t.rows.length : ℚ) ≠ 0 := by
  constructor
  · unfold completion_rate
    rw [sum_indicator_eq_length_filter
      (fun r => getCol "CompletionStatus" r = some (Value.str "Completed"))]
  · exact Nat.cast_ne_zero.mpr (fun h0 => h (List.length_eq_zero.mp h0))

/-- A two-row enrollment table with one completed enrollment. -/
def enrStatusEx : Table :=
  { cols := ["CompletionStatus"],
    rows := [[("CompletionStatus", .str "Completed")],
             [("CompletionStatus", .str "Dropped")]] }

/-- C6 (witness): on the concrete two-row table the completion rate is
the one completed row over two rows, times 100. -/
theorem C6_completion_rate_eq_witness :
    enrStatusEx.rows ≠ []
    ∧ completion_rate enrStatusEx
      = ((enrStatusEx.rows.filter fun r =>
          decide (getCol "CompletionStatus" r = some (Value.str "Completed"))).length : ℚ)
        / (enrStatusEx.rows.length : ℚ) * 100 :=
  ⟨by decide, (C6_completion_rate_eq enrStatusEx (by decide)).1⟩

/-- The month bucket of a row: the (year, month) of its EnrollmentDate
(the to_period M key of line 380), or none when the date is missing. -/
def monthKey (r : Row) : Option (Nat × Nat) :=
  match getCol "EnrollmentDate" r with
  | some (.date y m _) => some (y, m)
  | _ => none

/-- Occurrence count of an element in a list (spelled through the
decidable-equality test). -/
def countOcc {α : Type} [DecidableEq α] (a : α) (l : List α) : Nat :=
  @List.count α instBEqOfDecidableEq a l

/-- The month-bucketed enrollment trend of lines 380-382: group the
rows by their month bucket (pandas groupby drops rows with a missing
key) and count each group. -/
def monthly_enrollments (t : Table) : List ((Nat × Nat) × Nat) :=
  ((t.rows.filterMap monthKey).dedup).map
    (fun k => (k, countOcc k (t.rows.filterMap monthKey)))

theorem length_filterMap_of_isSome {α β : Type} (f : α → Option β) (l : List α)
    (h : ∀ x ∈ l, (f x).isSome = true) : (l.filterMap f).length = l.length := by
  induction l with
  | nil => rfl
  | cons x xs ih =>
    rcases hfx : f x with - | b
    · have hx := h x (List.mem_cons_self x xs)
      rw [hfx] at hx
      exact absurd hx (by simp)
    · rw [List.filterMap_cons_some hfx, List.length_cons, List.length_cons,
        ih (fun y hy => h y (List.mem_cons_of_mem x hy))]

/-- C7: when every row of the filtered enrollment table has an
EnrollmentDate, each row falls in exactly one bucket of the monthly
trend — the calendar month of its EnrollmentDate, which appears exactly
once among the buckets — and the bucket counts sum to the number of
rows. -/
theorem C7_monthly_trend_partition (t : Table)
    (h : ∀ r ∈ t.rows, (monthKey r).isSome = true) :
    ((monthly_enrollments t).map Prod.snd).sum = t.rows.length
    ∧ ∀ r ∈ t.rows, ∃ k : Nat × Nat, monthKey r = some k
        ∧ countOcc k ((monthly_enrollments t).map Prod.fst) = 1 := by
  constructor
  · unfold monthly_enrollments
    rw [List.map_map]
    have hsnd : (Prod.snd ∘ fun k => (k, countOcc k (t.rows.filterMap monthKey)))
        = fun k => countOcc k (t.rows.filterMap monthKey) := rfl
    rw [hsnd]
    simp only [countOcc]
    rw [List.sum_map_count_dedup_eq_length, length_filterMap_of_isSome _ _ h]
  · intro r hr
    rcases hk : monthKey r with - | k
    · have hx := h r hr
      rw [hk] at hx
      exact absurd hx (by simp)
    · refine ⟨k, rfl, ?_⟩
      unfold monthly_enrollments
      rw [List.map_map]
      have hfst : (Prod.fst ∘ fun k => (k, countOcc k (t.rows.filterMap monthKey))) = id := rfl
      rw [hfst, List.map_id]
      simp only [countOcc]
      exact List.count_eq_one_of_mem (List.nodup_dedup _)
        (List.mem_dedup.mpr (List.mem_filterMap.mpr ⟨r, hr, hk⟩))

/-- A three-row enrollment table spanning two calendar months. -/
def enrDatesEx : Table :=
  { cols := ["EnrollmentDate"],
    rows := [[("EnrollmentDate", .date 2024 1 10)],
             [("EnrollmentDate", .date 2024 2 5)],
             [("EnrollmentDate", .date 2024 1 20)]] }

/-- C7 (witness): on the concrete three-row table the bucket counts sum
to three and the January bucket appears exactly once. -/
theorem C7_monthly_trend_partition_witness :
    ((monthly_enrollments enrDatesEx).map Prod.snd).sum = enrDatesEx.rows.length
    ∧ ∃ k : Nat × Nat, monthKey [("EnrollmentDate", Value.date 2024 1 10)] = some k
        ∧ countOcc k ((monthly_enrollments enrDatesEx).map Prod.fst) = 1 :=
  have h := C7_monthly_trend_partition enrDatesEx (by decide)
  ⟨h.1, h.2 [("EnrollmentDate", Value.date 2024 1 10)] (by decide)⟩

/-- Column projection, as in selecting a column subset of a DataFrame
before a merge. -/
def projRow (cs : List String) (r : Row) : Row :=
  cs.filterMap (fun c => (getCol c r).map (fun v => (c, v)))

/-- The merge of integrated_analysis (lines 534-539): the inner join of
the selected enrollment columns with the selected performance columns
on StudentName and CourseTitle. -/
def integrated_rows (enrRows perfRows : List Row) : List Row :=
  enrRows.flatMap fun er =>
    (perfRows.filter fun pr =>
      decide (getCol "StudentName" pr = getCol "StudentName" er)
        && decide (getCol "CourseTitle" pr = getCol "CourseTitle" er)).map
      fun pr =>
        projRow ["StudentName", "CourseTitle", "MembershipType", "ProgressPercentage",
          "CompletionStatus"] er
        ++ projRow ["ScorePercentage", "AssessmentType"] pr

/-- The success predicate of lines 567-570: the row's ScorePercentage
is a number of at least 70 (a missing or non-numeric cell compares
False, as in pandas). -/
def scoreAtLeast70 (r : Row) : Bool :=
  match getCol "ScorePercentage" r with
  | some (.num q) => decide (70 ≤ q)
  | _ => false

/-- The success-rate-by-membership aggregation of lines 567-570: for
every distinct non-missing MembershipType, the sum over its group of
the 0/1 indicator of ScorePercentage at least 70, divided by the group
size, times 100. -/
def success_by_membership (rows : List Row) : List (Value × ℚ) :=
  ((rows.filterMap (getCol "MembershipType")).dedup).map fun m =>
    (m, ((rows.filter fun r => decide (getCol "MembershipType" r = some m)).map
          fun r => if scoreAtLeast70 r then (1 : ℚ) else 0).sum
      / ((rows.filter fun r => decide (getCol "MembershipType" r = some m)).length : ℚ)
      * 100)

theorem sum_indicator_bool_eq_length_filter (p : Row → Bool) (l : List Row) :
    (l.map fun r => if p r then (1 : ℚ) else 0).sum = ((l.filter p).length : ℚ) := by
  induction l with
  | nil => simp
  | cons x xs ih =>
    cases hx : p x
    · rw [List.map_cons, List.sum_cons, if_neg (by simp [hx]), ih,
        List.filter_cons_of_neg (by simp [hx]), zero_add]
    · rw [List.map_cons, List.sum_cons, if_pos hx, ih,
        List.filter_cons_of_pos hx, List.length_cons]
      push_cast
      ring

/-- C8: the success-rate-by-segment metric is computed on the inner
join of the two filtered tables on StudentName and CourseTitle, and
every membership type present in the joined rows is reported with rate
equal to the number of its joined rows with ScorePercentage at least
70, divided by the group size, times 100. -/
theorem C8_success_rate_by_membership (enrRows perfRows : List Row) (m : Value)
    (hm : m ∈ (integrated_rows enrRows perfRows).filterMap (getCol "MembershipType")) :
    (m, ((((integrated_rows enrRows perfRows).filter
            fun r => decide (getCol "MembershipType" r = some m)).filter
              scoreAtLeast70).length : ℚ)
        / (((integrated_rows enrRows perfRows).filter
            fun r => decide (getCol "MembershipType" r = some m)).length : ℚ)
        * 100)
      ∈ success_by_membership (integrated_rows enrRows perfRows) := by
  unfold success_by_membership
  refine List.mem_map.mpr ⟨m, List.mem_dedup.mpr hm, ?_⟩
  show ((m, (((integrated_rows enrRows perfRows).filter
          fun r => decide (getCol "MembershipType" r = some m)).map
            fun r => if scoreAtLeast70 r then (1 : ℚ) else 0).sum
      / (((integrated_rows enrRows perfRows).filter
          fun r => decide (getCol "MembershipType" r = some m)).length : ℚ)
      * 100) : Value × ℚ) = _
  rw [sum_indicator_bool_eq_length_filter scoreAtLeast70]

/-- A one-row enrollment side for the integrated join. -/
def enrIntEx : List Row :=
  [[("StudentName", .str "Ann"), ("CourseTitle", .str "Python Basics"),
    ("MembershipType", .str "Premium"), ("ProgressPercentage", .num 50),
    ("CompletionStatus", .str "In Progress")]]

/-- A two-row performance side matching the enrollment row, one passing
and one failing the 70-percent bar. -/
def perfIntEx : List Row :=
  [[("StudentName", .str "Ann"), ("CourseTitle", .str "Python Basics"),
    ("ScorePercentage", .num 80), ("AssessmentType", .str "Quiz")],
   [("StudentName", .str "Ann"), ("CourseTitle", .str "Python Basics"),
    ("ScorePercentage", .num 60), ("AssessmentType", .str "Exam")]]

/-- C8 (witness): on the concrete join the Premium group is reported
with its one-of-two success rate. -/
theorem C8_success_rate_by_membership_witness :
    (Value.str "Premium",
      ((((integrated_rows enrIntEx perfIntEx).filter
          fun r => decide (getCol "MembershipType" r = some (Value.str "Premium"))).filter
            scoreAtLeast70).length : ℚ)
        / (((integrated_rows enrIntEx perfIntEx).filter
          fun r => decide (getCol "MembershipType" r = some (Value.str "Premium"))).length : ℚ)
        * 100)
      ∈ success_by_membership (integrated_rows enrIntEx perfIntEx) :=
  C8_success_rate_by_membership enrIntEx perfIntEx (Value.str "Premium") (by decide)

/-- The top-level names that streamlit_app.py binds at module scope. -/
def moduleDefs : List String :=
  ["get_file_path", "load_data_from_csv", "load_sample_data", "create_sidebar_filters",
   "filter_data", "enrollment_dashboard", "performance_dashboard", "integrated_analysis",
   "main"]

/-- Result of running a Python fragment: a returned value or a raised
exception carrying its message. -/
inductive PyResult (α : Type) where
  | ok : α → PyResult α
  | exn : String → PyResult α
deriving DecidableEq

/-- The data-loading step of main (lines 598-603): on success the
loaded tables are used; when load_data_from_csv raises, the bare except
handler warns and then evaluates the global name
create_sample_data_from_schema to call it — and evaluating a name bound
neither in the module nor in builtins raises NameError. -/
def mainDataLoad (csvResult : PyResult (Table × Table)) (sampleTables : Table × Table) :
    PyResult (Table × Table) :=
  match csvResult with
  | .ok t => .ok t
  | .exn _ =>
      if moduleDefs.contains "create_sample_data_from_schema" then .ok sampleTables
      else .exn "NameError: name create_sample_data_from_schema is not defined"

/-- C4 (code bug): the outer exception handler of main calls
create_sample_data_from_schema, a name defined nowhere in the module,
so on that error path the fallback does not substitute sample data —
it raises NameError instead of succeeding. -/
theorem C4_fallback_name_error :
    "create_sample_data_from_schema" ∉ moduleDefs
    ∧ mainDataLoad (.exn "boom") ({ cols := [], rows := [] }, { cols := [], rows := [] })
        = .exn "NameError: name create_sample_data_from_schema is not defined" := by
  decide

end AdbProject
